import Mathlib

/-!
Verification of the SearXNG MCP server's request/response pipeline.

The development shallowly embeds the two components of the repository:

* `SearXNGClient` (`src/searxng_mcp/searxng_client.py`): parameter
  validation, outbound request construction, transport-error mapping and
  response parsing of `search` and `health_check`;
* `SearXNGMCPServer` (`src/searxng_mcp/server.py`): argument validation,
  error re-mapping and result formatting of `_handle_web_search` and
  `_format_search_results`.

The network is modelled by a `TransportOutcome` oracle handed to the
functions; the requests a function issues are returned alongside its
result so that "no network call is made" is a provable statement.
Python dict lookups on JSON objects are embedded as records of `Option`
fields covering exactly the keys the code reads.
-/

namespace SearxngMCP

/-- Single-quote character, used inside the server's error messages. -/
def sq : String := String.singleton (Char.ofNat 39)

/-- The configuration fields the two components read
(`src/searxng_mcp/config.py`). -/
structure Config where
  searxng_base_url : String
  searxng_timeout : Nat
  max_results_limit : Int
deriving DecidableEq, Repr

/-- `models.SearchResult`: one accepted search result. -/
structure SearchResult where
  title : String
  url : String
  content : String
  publishedDate : Option String
  engines : List String
deriving DecidableEq, Repr

/-- `models.SearchResults`: the result set returned by `search`. -/
structure SearchResults where
  query : String
  results : List SearchResult
  number_of_results : Nat
deriving DecidableEq, Repr

/-- One element of the backend's `results` array, as far as the code
observes it: the five keys it reads, each possibly absent. -/
structure ResultData where
  title : Option String
  url : Option String
  content : Option String
  publishedDate : Option String
  engines : Option (List String)
deriving DecidableEq, Repr

/-- The parsed JSON body of a backend response: the two top-level keys
the code reads, each possibly absent. -/
structure ResponseBody where
  query : Option String
  results : Option (List ResultData)
deriving DecidableEq, Repr

/-- Outcome of one outbound HTTP GET, as the `httpx` layer reports it:
a response (whose body parses to `some` body or fails to parse as JSON),
a timeout, a connection-establishment failure, or any other
`httpx.HTTPError` (including non-2xx statuses raised by
`raise_for_status`), carrying its rendered message. -/
inductive TransportOutcome where
  | success (body : Option ResponseBody)
  | timeout
  | connectError
  | otherHttpError (msg : String)
deriving DecidableEq, Repr

/-- The exception taxonomy of `searxng_client.py` plus `ValueError`:
`valueError` embeds Python `ValueError` (the spec's InvalidArgument),
`connectionError` embeds `SearXNGConnectionError`, `timeoutError`
embeds `SearXNGTimeoutError`, `responseError` embeds
`SearXNGResponseError`. Each carries `str(e)`. -/
inductive SearchError where
  | valueError (msg : String)
  | connectionError (msg : String)
  | timeoutError (msg : String)
  | responseError (msg : String)
deriving DecidableEq, Repr

/-- One outbound HTTP GET request: target URL and query parameters in
insertion order. -/
structure HttpRequest where
  url : String
  params : List (String × String)
deriving DecidableEq, Repr

instance {ε α : Type} [DecidableEq ε] [DecidableEq α] : DecidableEq (Except ε α) :=
  fun a b =>
    match a, b with
    | .ok x, .ok y =>
        if h : x = y then isTrue (by rw [h]) else isFalse (fun hh => h (Except.ok.inj hh))
    | .error x, .error y =>
        if h : x = y then isTrue (by rw [h]) else isFalse (fun hh => h (Except.error.inj hh))
    | .ok _, .error _ => isFalse (fun hh => Except.noConfusion hh)
    | .error _, .ok _ => isFalse (fun hh => Except.noConfusion hh)

/-- Result of running `SearXNGClient.search`: the returned value or the
raised exception, together with the list of HTTP requests issued. -/
structure ClientRun where
  result : Except SearchError SearchResults
  requests : List HttpRequest
deriving DecidableEq, Repr

/-- Python `str.rstrip("/")`: remove every trailing slash
(`SearXNGClient.__init__` applies it to the configured base URL). -/
def rstripSlashes (s : String) : String :=
  String.mk ((s.data.reverse.dropWhile (fun c => c = '/')).reverse)

namespace SearXNGClient

/-- `self.base_url` of the client: the configured base URL with
trailing slashes removed. -/
def base_url (cfg : Config) : String := rstripSlashes cfg.searxng_base_url

/-- The query parameters `search` builds: always `q` and `format=json`;
`categories` only when provided and non-empty (comma-joined);
`language` and `time_range` only when provided and non-empty
(Python truthiness of the `if` guards). -/
def buildParams (query : String) (categories : Option (List String))
    (language : Option String) (time_range : Option String) :
    List (String × String) :=
  [("q", query), ("format", "json")]
    ++ (match categories with
        | some cs => if cs = [] then [] else [("categories", String.intercalate "," cs)]
        | none => [])
    ++ (match language with
        | some l => if l = "" then [] else [("language", l)]
        | none => [])
    ++ (match time_range with
        | some t => if t = "" then [] else [("time_range", t)]
        | none => [])

/-- Per-element parsing step of `search`: an element missing any of
`title`, `url`, `content` is skipped (`none`); otherwise a
`SearchResult` is built, with `publishedDate` from the optional key and
`engines` defaulting to the empty list. -/
def parseResult (rd : ResultData) : Option SearchResult :=
  match rd.title, rd.url, rd.content with
  | some t, some u, some c =>
      some { title := t, url := u, content := c,
             publishedDate := rd.publishedDate,
             engines := rd.engines.getD [] }
  | _, _, _ => none

/-- The accepted elements of the backend's `results` array, in order. -/
def parseResults (rds : List ResultData) : List SearchResult :=
  rds.filterMap parseResult

/-- The truncation step of `search`: `results[:max_results]` is applied
only when `max_results` is provided and strictly positive. -/
def truncateResults (max_results : Option Int) (rs : List SearchResult) :
    List SearchResult :=
  match max_results with
  | some m => if 0 < m then rs.take m.toNat else rs
  | none => rs

/-- The part of `search` after the `max_results` precondition: issue the
GET, map transport errors, parse and validate the body. -/
def performSearch (cfg : Config) (query : String) (max_results : Option Int)
    (categories : Option (List String)) (language : Option String)
    (time_range : Option String) (transport : TransportOutcome) : ClientRun :=
  let req : HttpRequest :=
    { url := base_url cfg ++ "/search",
      params := buildParams query categories language time_range }
  match transport with
  | .timeout =>
      { result := .error (.timeoutError
          ("Search request timed out after " ++ toString cfg.searxng_timeout ++ "s")),
        requests := [req] }
  | .connectError =>
      { result := .error (.connectionError
          ("Unable to connect to SearXNG at " ++ base_url cfg
            ++ ". Please ensure SearXNG is running.")),
        requests := [req] }
  | .otherHttpError m =>
      { result := .error (.connectionError ("HTTP error while searching: " ++ m)),
        requests := [req] }
  | .success none =>
      { result := .error (.responseError "SearXNG returned malformed JSON response"),
        requests := [req] }
  | .success (some body) =>
      match body.query with
      | none =>
          { result := .error (.responseError
              ("Invalid SearXNG response: missing " ++ sq ++ "query" ++ sq ++ " field")),
            requests := [req] }
      | some bq =>
          match body.results with
          | none =>
              { result := .error (.responseError
                  ("Invalid SearXNG response: missing " ++ sq ++ "results" ++ sq ++ " field")),
                requests := [req] }
          | some rds =>
              let results := truncateResults max_results (parseResults rds)
              { result := .ok { query := bq, results := results,
                                number_of_results := results.length },
                requests := [req] }

/-- `SearXNGClient.search`: validate `max_results` against the
configured limit before any network traffic, then perform the search. -/
def search (cfg : Config) (query : String) (max_results : Option Int)
    (categories : Option (List String)) (language : Option String)
    (time_range : Option String) (transport : TransportOutcome) : ClientRun :=
  match max_results with
  | some m =>
      if cfg.max_results_limit < m then
        { result := .error (.valueError
            ("max_results (" ++ toString m ++ ") exceeds the configured limit of "
              ++ toString cfg.max_results_limit)),
          requests := [] }
      else
        performSearch cfg query max_results categories language time_range transport
  | none =>
      performSearch cfg query max_results categories language time_range transport

/-- `SearXNGClient.health_check`: a minimal query; any response counts
as healthy, transport errors are mapped to the taxonomy. -/
def health_check (cfg : Config) (transport : TransportOutcome) :
    Except SearchError Bool :=
  match transport with
  | .success _ => .ok true
  | .timeout =>
      .error (.timeoutError
        ("SearXNG health check timed out after " ++ toString cfg.searxng_timeout ++ "s"))
  | .connectError =>
      .error (.connectionError
        ("Unable to connect to SearXNG at " ++ base_url cfg
          ++ ". Please ensure SearXNG is running."))
  | .otherHttpError m =>
      .error (.connectionError ("HTTP error while connecting to SearXNG: " ++ m))

end SearXNGClient

/-- Python `content[:300]` plus the conditional `"..."` marker in
`_format_search_results` (slicing and `len` count code points). -/
def truncateContent (c : String) : String :=
  let t := String.mk (c.data.take 300)
  if 300 < c.data.length then t ++ "..." else t

namespace SearXNGMCPServer

/-- The lines `_format_search_results` appends for the `i`-th result
(1-indexed): title and URL lines always; the content line only when the
content is non-empty; the published line only when `publishedDate` is
truthy (present and non-empty); the sources line only when `engines` is
non-empty; then the blank separator line. -/
def resultLines (i : Nat) (r : SearchResult) : List String :=
  [toString i ++ ". " ++ r.title, "   URL: " ++ r.url]
    ++ (if r.content = "" then [] else ["   " ++ truncateContent r.content])
    ++ (match r.publishedDate with
        | some d => if d = "" then [] else ["   Published: " ++ d]
        | none => [])
    ++ (if r.engines = [] then [] else
          ["   Sources: " ++ String.intercalate ", " r.engines])
    ++ [""]

/-- The `for i, result in enumerate(results, 1)` loop: result blocks
appended in input order with a 1-based running index. -/
def buildLines : Nat → List SearchResult → List String
  | _, [] => []
  | i, r :: rest => resultLines i r ++ buildLines (i + 1) rest

/-- `SearXNGMCPServer._format_search_results`. -/
def format_search_results (rs : SearchResults) : String :=
  if rs.results = [] then
    "No results found for query: " ++ rs.query
  else
    String.intercalate "\n"
      (["Search results for: " ++ rs.query,
        "Found " ++ toString rs.number_of_results ++ " results\n"]
        ++ buildLines 1 rs.results)

/-- A caller-supplied `max_results` argument value: either a Python
`int`, or any value that is not an `int` (tagged for distinctness). -/
inductive ArgValue where
  | int (n : Int)
  | nonInt (tag : String)
deriving DecidableEq, Repr

/-- The tool-call arguments dict, as far as `_handle_web_search` reads
it: each key possibly absent. -/
structure Arguments where
  query : Option String
  max_results : Option ArgValue
  categories : Option (List String)
  language : Option String
  time_range : Option String
deriving DecidableEq, Repr

/-- Result of running `_handle_web_search`: the formatted text or the
message of the raised `ValueError` (every failure it raises is a
`ValueError`), the number of delegations to `SearXNGClient.search`, and
the HTTP requests issued. -/
structure HandlerRun where
  result : Except String String
  gatewayCalls : Nat
  requests : List HttpRequest
deriving DecidableEq, Repr

/-- The message of the `ValueError` that `_handle_web_search` re-raises
for each failure kind coming out of the search call: connection errors
get a hint naming the configured (unstripped) base URL; a `ValueError`
escaping the client is caught by the generic `except Exception` arm. -/
def handlerErrMsg (cfg : Config) : SearchError → String
  | .connectionError m =>
      "Failed to connect to SearXNG: " ++ m
        ++ "\n\nPlease ensure SearXNG is running at " ++ cfg.searxng_base_url
  | .timeoutError m => "Search request timed out: " ++ m
  | .responseError m => "Invalid response from SearXNG: " ++ m
  | .valueError m => "Unexpected error during search: " ++ m

/-- `SearXNGMCPServer._handle_web_search`: validate `query` and
`max_results`, delegate to `SearXNGClient.search`, format on success and
re-raise every failure as a `ValueError`. -/
def handle_web_search (cfg : Config) (args : Arguments)
    (transport : TransportOutcome) : HandlerRun :=
  match args.query with
  | none =>
      { result := .error (sq ++ "query" ++ sq ++ " parameter is required"),
        gatewayCalls := 0, requests := [] }
  | some q =>
      if q = "" then
        { result := .error (sq ++ "query" ++ sq ++ " parameter is required"),
          gatewayCalls := 0, requests := [] }
      else
        match args.max_results.getD (.int 10) with
        | .nonInt _ =>
            { result := .error (sq ++ "max_results" ++ sq ++ " must be a positive integer"),
              gatewayCalls := 0, requests := [] }
        | .int m =>
            if m < 1 then
              { result := .error (sq ++ "max_results" ++ sq ++ " must be a positive integer"),
                gatewayCalls := 0, requests := [] }
            else if cfg.max_results_limit < m then
              { result := .error (sq ++ "max_results" ++ sq ++ " exceeds limit of "
                  ++ toString cfg.max_results_limit),
                gatewayCalls := 0, requests := [] }
            else
              let run := SearXNGClient.search cfg q (some m) args.categories
                args.language args.time_range transport
              match run.result with
              | .ok rs =>
                  { result := .ok (format_search_results rs),
                    gatewayCalls := 1, requests := run.requests }
              | .error e =>
                  { result := .error (handlerErrMsg cfg e),
                    gatewayCalls := 1, requests := run.requests }

end SearXNGMCPServer

/-- Spec-level well-formedness of a backend result element: `title`,
`url` and `content` all present. -/
def wellFormed (rd : ResultData) : Bool :=
  rd.title.isSome && rd.url.isSome && rd.content.isSome

/-- Spec-level acceptance of a well-formed element (the defaults are
irrelevant: it is only applied to well-formed elements). -/
def acceptResult (rd : ResultData) : SearchResult :=
  { title := rd.title.getD "", url := rd.url.getD "",
    content := rd.content.getD "", publishedDate := rd.publishedDate,
    engines := rd.engines.getD [] }

/-- The per-result lines exactly as the spec's formatting algorithm
words them, for comparison with `SearXNGMCPServer.resultLines`: an
unconditional content line (truncated to 300 characters with an
ellipsis marker only when longer), a published-date line whenever the
date is present, a sources line whenever `engines` is non-empty. -/
def specResultLines (i : Nat) (r : SearchResult) : List String :=
  [toString i ++ ". " ++ r.title, "   URL: " ++ r.url,
    "   " ++ truncateContent r.content]
    ++ (match r.publishedDate with
        | some d => ["   Published: " ++ d]
        | none => [])
    ++ (if r.engines = [] then [] else
          ["   Sources: " ++ String.intercalate ", " r.engines])
    ++ [""]

/-- The spec's formatting algorithm, worded as in the spec, for
comparison with `SearXNGMCPServer.format_search_results`. -/
def specFormatResults (rs : SearchResults) : String :=
  if rs.results = [] then
    "No results found for query: " ++ rs.query
  else
    String.intercalate "\n"
      (["Search results for: " ++ rs.query,
        "Found " ++ toString rs.number_of_results ++ " results\n"]
        ++ (((rs.results).enumFrom 1).map (fun p => specResultLines p.1 p.2)).flatten)

/-! ## Helper lemmas -/

theorem head?_dropWhile_ne {α : Type} (p : α → Bool) (l : List α) (a : α)
    (h : (l.dropWhile p).head? = some a) : p a = false := by
  induction l with
  | nil => simp [List.dropWhile] at h
  | cons x xs ih =>
    rw [List.dropWhile_cons] at h
    by_cases hx : p x
    · rw [if_pos hx] at h
      exact ih h
    · rw [if_neg hx] at h
      simp only [List.head?_cons, Option.some.injEq] at h
      subst h
      simpa using hx

theorem rstripSlashes_last_ne_slash (s : String) (c : Char)
    (h : (rstripSlashes s).data.reverse.head? = some c) : c ≠ '/' := by
  simp only [rstripSlashes, List.reverse_reverse] at h
  have := head?_dropWhile_ne (fun c => c = '/') s.data.reverse c h
  simpa using this

theorem parseResults_eq_filter_map (rds : List ResultData) :
    SearXNGClient.parseResults rds
      = (rds.filter (fun rd => wellFormed rd)).map acceptResult := by
  induction rds with
  | nil => rfl
  | cons rd rest ih =>
    simp only [SearXNGClient.parseResults, List.filterMap_cons] at ih ⊢
    obtain ⟨t, u, c, p, e⟩ := rd
    cases t <;> cases u <;> cases c <;>
      simp [SearXNGClient.parseResult, wellFormed, acceptResult, ih, List.filter_cons]

theorem performSearch_requests (cfg : Config) (q : String) (mr : Option Int)
    (cats : Option (List String)) (lang : Option String) (tr : Option String)
    (transport : TransportOutcome) :
    (SearXNGClient.performSearch cfg q mr cats lang tr transport).requests
      = [{ url := SearXNGClient.base_url cfg ++ "/search",
           params := SearXNGClient.buildParams q cats lang tr }] := by
  cases transport with
  | success body =>
    cases body with
    | none => rfl
    | some b =>
      obtain ⟨bq, br⟩ := b
      cases bq <;> cases br <;> rfl
  | timeout => rfl
  | connectError => rfl
  | otherHttpError m => rfl

theorem buildParams_lookup (q : String) (cats : Option (List String))
    (lang : Option String) (tr : Option String) :
    (SearXNGClient.buildParams q cats lang tr).lookup "q" = some q ∧
    (SearXNGClient.buildParams q cats lang tr).lookup "format" = some "json" ∧
    (SearXNGClient.buildParams q cats lang tr).lookup "categories"
      = (match cats with
         | some cs => if cs = [] then none else some (String.intercalate "," cs)
         | none => none) ∧
    (SearXNGClient.buildParams q cats lang tr).lookup "language"
      = (match lang with
         | some l => if l = "" then none else some l
         | none => none) ∧
    (SearXNGClient.buildParams q cats lang tr).lookup "time_range"
      = (match tr with
         | some t => if t = "" then none else some t
         | none => none) := by
  rcases cats with _ | cs <;> rcases lang with _ | l <;> rcases tr with _ | t <;>
    refine ⟨?_, ?_, ?_, ?_, ?_⟩ <;>
    simp only [SearXNGClient.buildParams] <;>
    (repeat' split) <;>
    simp_all [List.lookup]

theorem buildLines_eq_enumFrom (i : Nat) (l : List SearchResult) :
    SearXNGMCPServer.buildLines i l
      = ((l.enumFrom i).map (fun p => SearXNGMCPServer.resultLines p.1 p.2)).flatten := by
  induction l generalizing i with
  | nil => rfl
  | cons r rest ih =>
    simp [SearXNGMCPServer.buildLines, List.enumFrom, ih]

theorem truncateContent_short (c : String) (h : c.data.length ≤ 300) :
    truncateContent c = c := by
  have hn : ¬ 300 < c.data.length := by omega
  simp only [truncateContent, if_neg hn, List.take_of_length_le h]

theorem truncateContent_long (c : String) (h : 300 < c.data.length) :
    truncateContent c = String.mk (c.data.take 300) ++ "..." := by
  simp only [truncateContent, if_pos h]

/-! ## Claims -/

/-- Claim C2: whenever `max_results` is provided and exceeds the
configured `max_results_limit`, `SearXNGClient.search` raises
`ValueError` (the InvalidArgument kind) and issues no HTTP request. -/
theorem C2_ceiling_blocks_network (cfg : Config) (q : String) (m : Int)
    (cats : Option (List String)) (lang : Option String) (tr : Option String)
    (transport : TransportOutcome) (h : cfg.max_results_limit < m) :
    SearXNGClient.search cfg q (some m) cats lang tr transport
      = { result := .error (.valueError ("max_results (" ++ toString m
            ++ ") exceeds the configured limit of " ++ toString cfg.max_results_limit)),
          requests := [] } := by
  simp [SearXNGClient.search, h]

theorem C2_ceiling_blocks_network_witness :
    SearXNGClient.search ⟨"http://localhost:8080", 10, 50⟩ "q" (some 51) none none none
        .timeout
      = { result := .error (.valueError "max_results (51) exceeds the configured limit of 50"),
          requests := [] } := by
  rw [C2_ceiling_blocks_network ⟨"http://localhost:8080", 10, 50⟩ "q" 51 none none none
    .timeout (by decide)]
  decide

/-- Claim C3, counterexample: the claim asserts that a transport-level
error other than a connection-establishment failure or a timeout is
mapped to a kind distinct from ConnectionFailure. On the concrete input
`TransportOutcome.otherHttpError "boom"`, both `health_check` and
`search` raise `SearXNGConnectionError` — the very same kind as for a
refused connection; the code defines no separate TransportFailure
exception class at all. -/
theorem C3_other_transport_error_is_connection_error :
    SearXNGClient.health_check ⟨"http://localhost:8080", 10, 50⟩ (.otherHttpError "boom")
      = .error (.connectionError "HTTP error while connecting to SearXNG: boom") ∧
    (SearXNGClient.search ⟨"http://localhost:8080", 10, 50⟩ "q" none none none none
        (.otherHttpError "boom")).result
      = .error (.connectionError "HTTP error while searching: boom") := by
  exact ⟨by decide, by decide⟩

/-- Claim C3 (amended): `health_check` and `search` map a timeout to
`SearXNGTimeoutError` and both a connection-establishment failure and
any other transport-level error to `SearXNGConnectionError` (there are
only two transport-failure kinds, not three); any received response
makes `health_check` succeed. -/
theorem C3_transport_error_mapping (cfg : Config) (q em : String)
    (cats : Option (List String)) (lang : Option String) (tr : Option String)
    (body : Option ResponseBody) :
    SearXNGClient.health_check cfg .timeout
      = .error (.timeoutError ("SearXNG health check timed out after "
          ++ toString cfg.searxng_timeout ++ "s")) ∧
    SearXNGClient.health_check cfg .connectError
      = .error (.connectionError ("Unable to connect to SearXNG at "
          ++ SearXNGClient.base_url cfg ++ ". Please ensure SearXNG is running.")) ∧
    SearXNGClient.health_check cfg (.otherHttpError em)
      = .error (.connectionError ("HTTP error while connecting to SearXNG: " ++ em)) ∧
    SearXNGClient.health_check cfg (.success body) = .ok true ∧
    (SearXNGClient.search cfg q none cats lang tr .timeout).result
      = .error (.timeoutError ("Search request timed out after "
          ++ toString cfg.searxng_timeout ++ "s")) ∧
    (SearXNGClient.search cfg q none cats lang tr .connectError).result
      = .error (.connectionError ("Unable to connect to SearXNG at "
          ++ SearXNGClient.base_url cfg ++ ". Please ensure SearXNG is running.")) ∧
    (SearXNGClient.search cfg q none cats lang tr (.otherHttpError em)).result
      = .error (.connectionError ("HTTP error while searching: " ++ em)) :=
  ⟨rfl, rfl, rfl, rfl, rfl, rfl, rfl⟩

/-- Claim C5: during response parsing, an element of the `results`
array missing any of `title`, `url`, `content` is skipped, and an
element with all three is accepted, with `publishedDate` taken from the
optional key (absent key giving `none`) and `engines` defaulting to the
empty list; the output sequence is exactly the accepted elements in
order. -/
theorem C5_element_leniency (rds : List ResultData) :
    SearXNGClient.parseResults rds
      = (rds.filter (fun rd => wellFormed rd)).map acceptResult ∧
    (∀ rd : ResultData, (rd.title = none ∨ rd.url = none ∨ rd.content = none) →
      SearXNGClient.parseResult rd = none) ∧
    (∀ (rd : ResultData) (t u c : String), rd.title = some t → rd.url = some u →
      rd.content = some c →
      SearXNGClient.parseResult rd
        = some { title := t, url := u, content := c,
                 publishedDate := rd.publishedDate,
                 engines := rd.engines.getD [] }) := by
  refine ⟨parseResults_eq_filter_map rds, ?_, ?_⟩
  · intro rd h
    obtain ⟨t, u, c, p, e⟩ := rd
    cases t <;> cases u <;> cases c <;> simp_all [SearXNGClient.parseResult]
  · intro rd t u c ht hu hc
    obtain ⟨t0, u0, c0, p, e⟩ := rd
    simp only at ht hu hc
    subst ht hu hc
    rfl

theorem C5_element_leniency_witness :
    SearXNGClient.parseResult ⟨none, some "U", some "C", none, none⟩ = none ∧
    SearXNGClient.parseResult ⟨some "T", some "U", some "C", some "D", none⟩
      = some ⟨"T", "U", "C", some "D", []⟩ ∧
    SearXNGClient.parseResults
        [⟨some "T", some "U", some "C", some "D", none⟩, ⟨none, some "U2", some "C2", none, none⟩]
      = [⟨"T", "U", "C", some "D", []⟩] := by
  refine ⟨(C5_element_leniency []).2.1 _ (Or.inl rfl), ?_, ?_⟩
  · have h := (C5_element_leniency []).2.2
      ⟨some "T", some "U", some "C", some "D", none⟩ "T" "U" "C" rfl rfl rfl
    simpa using h
  · have h := (C5_element_leniency
      [⟨some "T", some "U", some "C", some "D", none⟩, ⟨none, some "U2", some "C2", none, none⟩]).1
    rw [h]
    decide

/-- Claim C8: for a result set with an empty `results` sequence, the
formatter produces exactly `"No results found for query: {query}"`. -/
theorem C8_empty_results_message (rs : SearchResults) (h : rs.results = []) :
    SearXNGMCPServer.format_search_results rs
      = "No results found for query: " ++ rs.query := by
  simp [SearXNGMCPServer.format_search_results, h]

theorem C8_empty_results_message_witness :
    SearXNGMCPServer.format_search_results ⟨"rust programming", [], 0⟩
      = "No results found for query: rust programming" := by
  rw [C8_empty_results_message ⟨"rust programming", [], 0⟩ rfl]
  decide

/-- Claim C1: whenever `SearXNGClient.search` accepts a response body,
the returned result set satisfies `number_of_results = results.length`,
where `results` is the sequence of accepted elements truncated (by
`List.take`, a prefix: relative order preserved) to `max_results` when
it is given and positive, and in that case never has more than
`max_results` elements. -/
theorem C1_result_count_invariant (cfg : Config) (q : String) (mr : Option Int)
    (cats : Option (List String)) (lang : Option String) (tr : Option String)
    (body : ResponseBody) (rs : SearchResults)
    (h : (SearXNGClient.search cfg q mr cats lang tr (.success (some body))).result
          = .ok rs) :
    rs.number_of_results = rs.results.length ∧
    (∃ rds, body.results = some rds ∧
      rs.results = SearXNGClient.truncateResults mr (SearXNGClient.parseResults rds) ∧
      (∀ m : Int, mr = some m → 0 < m →
        rs.results = (SearXNGClient.parseResults rds).take m.toNat ∧
        rs.results.length ≤ m.toNat)) := by
  obtain ⟨bq, br⟩ := body
  have hres : ∀ rds, br = some rds →
      rs = { query := (bq.getD ""),
             results := SearXNGClient.truncateResults mr (SearXNGClient.parseResults rds),
             number_of_results :=
               (SearXNGClient.truncateResults mr (SearXNGClient.parseResults rds)).length }
        ∧ bq ≠ none := by
    intro rds hrds
    subst hrds
    cases bq with
    | none =>
      exfalso
      cases mr with
      | none => simp [SearXNGClient.search, SearXNGClient.performSearch] at h
      | some m =>
        by_cases hm : cfg.max_results_limit < m <;>
          simp [SearXNGClient.search, SearXNGClient.performSearch, hm] at h
    | some bqv =>
      constructor
      · cases mr with
        | none =>
          simp [SearXNGClient.search, SearXNGClient.performSearch] at h
          exact h.symm
        | some m =>
          by_cases hm : cfg.max_results_limit < m <;>
            simp [SearXNGClient.search, SearXNGClient.performSearch, hm] at h
          exact h.symm
      · exact Option.some_ne_none bqv
  have hbr : ∃ rds, br = some rds := by
    cases br with
    | none =>
      exfalso
      rcases mr with _ | m
      · cases bq <;> simp [SearXNGClient.search, SearXNGClient.performSearch] at h
      · by_cases hm : cfg.max_results_limit < m <;> cases bq <;>
          simp [SearXNGClient.search, SearXNGClient.performSearch, hm] at h
    | some rds => exact ⟨rds, rfl⟩
  obtain ⟨rds, hrds⟩ := hbr
  obtain ⟨hrs, _⟩ := hres rds hrds
  subst hrs
  refine ⟨rfl, rds, hrds, rfl, ?_⟩
  intro m hm hpos
  subst hm
  have ht : SearXNGClient.truncateResults (some m) (SearXNGClient.parseResults rds)
      = (SearXNGClient.parseResults rds).take m.toNat := by
    simp [SearXNGClient.truncateResults, hpos]
  refine ⟨ht, ?_⟩
  rw [ht]
  exact List.length_take_le m.toNat (SearXNGClient.parseResults rds)

theorem C1_result_count_invariant_witness :
    (SearXNGClient.search ⟨"http://localhost:8080", 10, 50⟩ "rust" (some 1) none none none
        (.success (some ⟨some "rust",
          some [⟨some "T", some "U", some "C", none, none⟩,
                ⟨some "T2", some "U2", some "C2", none, none⟩]⟩))).result
      = .ok ⟨"rust", [⟨"T", "U", "C", none, []⟩], 1⟩ ∧
    (1 : Nat) = [SearchResult.mk "T" "U" "C" none []].length ∧
    [SearchResult.mk "T" "U" "C" none []].length ≤ (1 : Int).toNat := by
  refine ⟨by decide, ?_, ?_⟩
  · have h := C1_result_count_invariant ⟨"http://localhost:8080", 10, 50⟩ "rust" (some 1)
      none none none
      ⟨some "rust", some [⟨some "T", some "U", some "C", none, none⟩,
        ⟨some "T2", some "U2", some "C2", none, none⟩]⟩
      ⟨"rust", [⟨"T", "U", "C", none, []⟩], 1⟩ (by decide)
    exact h.1
  · have h := C1_result_count_invariant ⟨"http://localhost:8080", 10, 50⟩ "rust" (some 1)
      none none none
      ⟨some "rust", some [⟨some "T", some "U", some "C", none, none⟩,
        ⟨some "T2", some "U2", some "C2", none, none⟩]⟩
      ⟨"rust", [⟨"T", "U", "C", none, []⟩], 1⟩ (by decide)
    obtain ⟨-, rds, hrds, -, hm⟩ := h
    obtain ⟨-, hle⟩ := hm 1 rfl (by decide)
    exact hle

/-- Claim C9: whenever the `max_results` precondition passes,
`SearXNGClient.search` issues exactly one GET to
`{base_url stripped of trailing slashes}/search` whose parameters are
`buildParams`, whose lookup behaviour is: `q` is always the query text,
`format` is always `"json"`, `categories` is present exactly when a
non-empty list was provided (comma-joined), and `language` /
`time_range` are present only when provided (and non-empty, by the
truthiness of the guards); moreover the stripped base URL has no
trailing slash left. -/
theorem C9_request_construction (cfg : Config) (q : String) (mr : Option Int)
    (cats : Option (List String)) (lang : Option String) (tr : Option String)
    (transport : TransportOutcome)
    (h : ∀ m : Int, mr = some m → m ≤ cfg.max_results_limit) :
    (SearXNGClient.search cfg q mr cats lang tr transport).requests
      = [{ url := rstripSlashes cfg.searxng_base_url ++ "/search",
           params := SearXNGClient.buildParams q cats lang tr }] ∧
    (SearXNGClient.buildParams q cats lang tr).lookup "q" = some q ∧
    (SearXNGClient.buildParams q cats lang tr).lookup "format" = some "json" ∧
    (SearXNGClient.buildParams q cats lang tr).lookup "categories"
      = (match cats with
         | some cs => if cs = [] then none else some (String.intercalate "," cs)
         | none => none) ∧
    (SearXNGClient.buildParams q cats lang tr).lookup "language"
      = (match lang with
         | some l => if l = "" then none else some l
         | none => none) ∧
    (SearXNGClient.buildParams q cats lang tr).lookup "time_range"
      = (match tr with
         | some t => if t = "" then none else some t
         | none => none) ∧
    (∀ c : Char, (rstripSlashes cfg.searxng_base_url).data.reverse.head? = some c →
      c ≠ '/') := by
  obtain ⟨h1, h2, h3, h4, h5⟩ := buildParams_lookup q cats lang tr
  refine ⟨?_, h1, h2, h3, h4, h5, rstripSlashes_last_ne_slash cfg.searxng_base_url⟩
  cases mr with
  | none => exact performSearch_requests cfg q none cats lang tr transport
  | some m =>
    have hm : ¬ cfg.max_results_limit < m := not_lt.mpr (h m rfl)
    simp only [SearXNGClient.search, if_neg hm]
    exact performSearch_requests cfg q (some m) cats lang tr transport

theorem C9_request_construction_witness :
    (SearXNGClient.search ⟨"http://localhost:8080/", 10, 50⟩ "rust" (some 5)
        (some ["general", "news"]) (some "en") none .connectError).requests
      = [{ url := "http://localhost:8080/search",
           params := [("q", "rust"), ("format", "json"),
                      ("categories", "general,news"), ("language", "en")] }] := by
  have h := C9_request_construction ⟨"http://localhost:8080/", 10, 50⟩ "rust" (some 5)
    (some ["general", "news"]) (some "en") none .connectError
    (by intro m hm; cases hm; decide)
  rw [h.1]
  decide

/-- Claim C10: calling `SearXNGClient.search` directly with a
non-positive `max_results` (which does not exceed a positive ceiling)
passes the precondition, performs the network call, applies no
truncation, and returns every accepted element with
`number_of_results` equal to their total count. -/
theorem C10_nonpositive_means_no_truncation (cfg : Config) (q bq : String) (m : Int)
    (cats : Option (List String)) (lang : Option String) (tr : Option String)
    (rds : List ResultData) (hm : m ≤ 0) (hceil : 0 < cfg.max_results_limit) :
    (SearXNGClient.search cfg q (some m) cats lang tr
        (.success (some ⟨some bq, some rds⟩))).result
      = .ok { query := bq, results := SearXNGClient.parseResults rds,
              number_of_results := (SearXNGClient.parseResults rds).length } ∧
    (SearXNGClient.search cfg q (some m) cats lang tr
        (.success (some ⟨some bq, some rds⟩))).requests.length = 1 := by
  have hlt : ¬ cfg.max_results_limit < m := by omega
  have htr : ¬ (0 : Int) < m := by omega
  constructor
  · simp [SearXNGClient.search, SearXNGClient.performSearch,
      SearXNGClient.truncateResults, hlt, htr]
  · simp only [SearXNGClient.search, if_neg hlt]
    rw [performSearch_requests]
    rfl

theorem C10_nonpositive_means_no_truncation_witness :
    (SearXNGClient.search ⟨"http://localhost:8080", 10, 50⟩ "q" (some 0) none none none
        (.success (some ⟨some "q",
          some [⟨some "T", some "U", some "C", none, none⟩,
                ⟨some "T2", some "U2", some "C2", none, none⟩]⟩))).result
      = .ok ⟨"q", [⟨"T", "U", "C", none, []⟩, ⟨"T2", "U2", "C2", none, []⟩], 2⟩ := by
  have h := C10_nonpositive_means_no_truncation ⟨"http://localhost:8080", 10, 50⟩ "q" "q" 0
    none none none
    [⟨some "T", some "U", some "C", none, none⟩, ⟨some "T2", some "U2", some "C2", none, none⟩]
    (by decide) (by decide)
  rw [h.1]
  decide

/-- Claim C6: `_handle_web_search` raises `ValueError` before any
delegation to `SearXNGClient.search` (zero gateway calls, zero HTTP
requests) whenever the query argument is absent or empty, whenever
`max_results` (defaulting to 10 when absent) is not an `int` or is
below 1 — in particular for every zero or negative value — and
whenever it exceeds the configured ceiling. -/
theorem C6_handler_validation (cfg : Config) (args : SearXNGMCPServer.Arguments)
    (transport : TransportOutcome) :
    ((args.query = none ∨ args.query = some "") →
      SearXNGMCPServer.handle_web_search cfg args transport
        = { result := .error (sq ++ "query" ++ sq ++ " parameter is required"),
            gatewayCalls := 0, requests := [] }) ∧
    (∀ q : String, args.query = some q → q ≠ "" →
      ((∀ tag : String, args.max_results.getD (.int 10) = .nonInt tag →
          SearXNGMCPServer.handle_web_search cfg args transport
            = { result := .error (sq ++ "max_results" ++ sq ++ " must be a positive integer"),
                gatewayCalls := 0, requests := [] }) ∧
       (∀ m : Int, args.max_results.getD (.int 10) = .int m → m < 1 →
          SearXNGMCPServer.handle_web_search cfg args transport
            = { result := .error (sq ++ "max_results" ++ sq ++ " must be a positive integer"),
                gatewayCalls := 0, requests := [] }) ∧
       (∀ m : Int, args.max_results.getD (.int 10) = .int m → 1 ≤ m →
          cfg.max_results_limit < m →
          SearXNGMCPServer.handle_web_search cfg args transport
            = { result := .error (sq ++ "max_results" ++ sq ++ " exceeds limit of "
                  ++ toString cfg.max_results_limit),
                gatewayCalls := 0, requests := [] }))) := by
  refine ⟨?_, ?_⟩
  · rintro (hq | hq) <;> simp [SearXNGMCPServer.handle_web_search, hq]
  · intro q hq hne
    refine ⟨?_, ?_, ?_⟩
    · intro tag htag
      simp [SearXNGMCPServer.handle_web_search, hq, hne, htag]
    · intro m hm hlt
      simp [SearXNGMCPServer.handle_web_search, hq, hne, hm, hlt]
    · intro m hm h1 h2
      have hnlt : ¬ m < 1 := by omega
      simp [SearXNGMCPServer.handle_web_search, hq, hne, hm, hnlt, h2]

theorem C6_handler_validation_witness :
    SearXNGMCPServer.handle_web_search ⟨"http://localhost:8080", 10, 50⟩
        ⟨some "", none, none, none, none⟩ .timeout
      = { result := .error (sq ++ "query" ++ sq ++ " parameter is required"),
          gatewayCalls := 0, requests := [] } ∧
    SearXNGMCPServer.handle_web_search ⟨"http://localhost:8080", 10, 50⟩
        ⟨some "q", some (.int 0), none, none, none⟩ .timeout
      = { result := .error (sq ++ "max_results" ++ sq ++ " must be a positive integer"),
          gatewayCalls := 0, requests := [] } ∧
    SearXNGMCPServer.handle_web_search ⟨"http://localhost:8080", 10, 50⟩
        ⟨some "q", some (.int (-3)), none, none, none⟩ .timeout
      = { result := .error (sq ++ "max_results" ++ sq ++ " must be a positive integer"),
          gatewayCalls := 0, requests := [] } ∧
    SearXNGMCPServer.handle_web_search ⟨"http://localhost:8080", 10, 50⟩
        ⟨some "q", some (.int 51), none, none, none⟩ .timeout
      = { result := .error (sq ++ "max_results" ++ sq ++ " exceeds limit of 50"),
          gatewayCalls := 0, requests := [] } := by
  refine ⟨?_, ?_, ?_, ?_⟩
  · exact (C6_handler_validation ⟨"http://localhost:8080", 10, 50⟩
      ⟨some "", none, none, none, none⟩ .timeout).1 (Or.inr rfl)
  · exact ((C6_handler_validation ⟨"http://localhost:8080", 10, 50⟩
      ⟨some "q", some (.int 0), none, none, none⟩ .timeout).2 "q" rfl
      (by decide)).2.1 0 rfl (by decide)
  · exact ((C6_handler_validation ⟨"http://localhost:8080", 10, 50⟩
      ⟨some "q", some (.int (-3)), none, none, none⟩ .timeout).2 "q" rfl
      (by decide)).2.1 (-3) rfl (by decide)
  · have h := ((C6_handler_validation ⟨"http://localhost:8080", 10, 50⟩
      ⟨some "q", some (.int 51), none, none, none⟩ .timeout).2 "q" rfl
      (by decide)).2.2 51 rfl (by decide) (by decide)
    rw [h]
    decide

/-- Claim C4: once validation passes, every failure raised by the
search call — any of the internal kinds, the `ValueError` kind landing
in the generic `except Exception` arm included — is caught by
`_handle_web_search` and re-raised as a single `ValueError` carrying
the per-kind descriptive message `handlerErrMsg`; for a connection
failure the surfaced message names the configured base URL. -/
theorem C4_handler_error_mapping (cfg : Config) (args : SearXNGMCPServer.Arguments)
    (transport : TransportOutcome) (q : String) (m : Int) (e : SearchError)
    (hq : args.query = some q) (hqne : q ≠ "")
    (hm : args.max_results.getD (.int 10) = .int m)
    (hm1 : 1 ≤ m) (hm2 : m ≤ cfg.max_results_limit)
    (he : (SearXNGClient.search cfg q (some m) args.categories args.language
        args.time_range transport).result = .error e) :
    (SearXNGMCPServer.handle_web_search cfg args transport).result
      = .error (SearXNGMCPServer.handlerErrMsg cfg e) ∧
    (transport = .connectError →
      (SearXNGMCPServer.handle_web_search cfg args transport).result
        = .error ("Failed to connect to SearXNG: "
            ++ ("Unable to connect to SearXNG at " ++ rstripSlashes cfg.searxng_base_url
                ++ ". Please ensure SearXNG is running.")
            ++ "\n\nPlease ensure SearXNG is running at " ++ cfg.searxng_base_url)) := by
  have hnlt : ¬ m < 1 := by omega
  have hnle : ¬ cfg.max_results_limit < m := not_lt.mpr hm2
  have hmain : (SearXNGMCPServer.handle_web_search cfg args transport).result
      = .error (SearXNGMCPServer.handlerErrMsg cfg e) := by
    simp [SearXNGMCPServer.handle_web_search, hq, hqne, hm, hnlt, hnle, he]
  refine ⟨hmain, ?_⟩
  intro htr
  subst htr
  have hce : (SearXNGClient.search cfg q (some m) args.categories args.language
      args.time_range .connectError).result
      = .error (.connectionError ("Unable to connect to SearXNG at "
          ++ SearXNGClient.base_url cfg ++ ". Please ensure SearXNG is running.")) := by
    simp [SearXNGClient.search, SearXNGClient.performSearch, hnle]
  rw [he] at hce
  obtain rfl : e = .connectionError ("Unable to connect to SearXNG at "
      ++ SearXNGClient.base_url cfg ++ ". Please ensure SearXNG is running.") := by
    exact (Except.error.inj hce)
  rw [hmain]
  rfl

set_option maxRecDepth 40000 in
theorem C4_handler_error_mapping_witness :
    (SearXNGMCPServer.handle_web_search ⟨"http://localhost:8080", 10, 50⟩
        ⟨some "q", none, none, none, none⟩ .connectError).result
      = .error ("Failed to connect to SearXNG: Unable to connect to SearXNG at http://localhost:8080. Please ensure SearXNG is running.\n\nPlease ensure SearXNG is running at http://localhost:8080") := by
  have h := C4_handler_error_mapping ⟨"http://localhost:8080", 10, 50⟩
    ⟨some "q", none, none, none, none⟩ .connectError "q" 10
    (.connectionError "Unable to connect to SearXNG at http://localhost:8080. Please ensure SearXNG is running.")
    rfl (by decide) rfl (by decide) (by decide) (by decide)
  rw [h.2 rfl]
  decide

/-- Claim C7, counterexample: the claim mandates a content line for
each result (rendered unchanged when at most 300 characters) and a
published-date line whenever the date is present. On the concrete
result `{title := "T", url := "U", content := "", publishedDate :=
some "", engines := ["e"]}` the code's truthiness guards drop both
lines, so the rendering differs from `specFormatResults`, the formatter
worded as the claim states it: the code omits the `"   "` content line
and the `"   Published: "` line that the claim requires. -/
theorem C7_empty_content_and_date_lines_dropped :
    SearXNGMCPServer.format_search_results ⟨"q", [⟨"T", "U", "", some "", ["e"]⟩], 1⟩
      ≠ specFormatResults ⟨"q", [⟨"T", "U", "", some "", ["e"]⟩], 1⟩ ∧
    SearXNGMCPServer.format_search_results ⟨"q", [⟨"T", "U", "", some "", ["e"]⟩], 1⟩
      = "Search results for: q\nFound 1 results\n\n1. T\n   URL: U\n   Sources: e\n" ∧
    specFormatResults ⟨"q", [⟨"T", "U", "", some "", ["e"]⟩], 1⟩
      = "Search results for: q\nFound 1 results\n\n1. T\n   URL: U\n   \n   Published: \n   Sources: e\n" :=
  ⟨by decide, by decide, by decide⟩

/-- Claim C7 (amended): for every non-empty result set the formatter
produces the `"Search results for: {query}"` and
`"Found {result_count} results"` header and then, for each result in
input order and 1-indexed, the block `resultLines`: a title line, a URL
line, a content line included only when the content is non-empty
(truncated to 300 characters with a trailing `"..."` exactly when the
content exceeds 300 characters, rendered unchanged otherwise), a
published-date line only when the date is present and non-empty, a
sources line joining engine names with `", "` only when `engines` is
non-empty, then a blank separator line; no sorting or re-ranking. -/
theorem C7_formatting (rs : SearchResults) (h : rs.results ≠ []) :
    SearXNGMCPServer.format_search_results rs
      = String.intercalate "\n"
          (["Search results for: " ++ rs.query,
            "Found " ++ toString rs.number_of_results ++ " results\n"]
            ++ ((rs.results.enumFrom 1).map
                  (fun p => SearXNGMCPServer.resultLines p.1 p.2)).flatten) ∧
    (∀ c : String, c.data.length ≤ 300 → truncateContent c = c) ∧
    (∀ c : String, 300 < c.data.length →
      truncateContent c = String.mk (c.data.take 300) ++ "...") := by
  refine ⟨?_, truncateContent_short, truncateContent_long⟩
  simp only [SearXNGMCPServer.format_search_results, if_neg h, buildLines_eq_enumFrom]

set_option maxRecDepth 40000 in
theorem C7_formatting_witness :
    SearXNGMCPServer.format_search_results
        ⟨"rust programming",
         [⟨"Rust", "https://rust-lang.org", "A systems language", none, ["duckduckgo"]⟩], 1⟩
      = "Search results for: rust programming\nFound 1 results\n\n1. Rust\n   URL: https://rust-lang.org\n   A systems language\n   Sources: duckduckgo\n" ∧
    truncateContent (String.mk (List.replicate 301 'a'))
      = String.mk (List.replicate 300 'a') ++ "..." := by
  have h := C7_formatting
    ⟨"rust programming",
     [⟨"Rust", "https://rust-lang.org", "A systems language", none, ["duckduckgo"]⟩], 1⟩
    (by decide)
  refine ⟨?_, ?_⟩
  · rw [h.1]
    decide
  · have ht := h.2.2 (String.mk (List.replicate 301 'a')) (by decide)
    rw [ht]
    decide

end SearxngMCP
